import Mathlib

/-!
Verification of the file-transfer facade (src/test.py, src/download.py)
against its natural-language specification.

The Python sources are shallowly embedded: JSON values become an inductive
type, the mutable facade object becomes explicit state passing, raised
exceptions become `Except` error values, and the network is an explicit
environment parameter describing the outcome of each outbound call.
-/

/-- JSON values, as produced by `response.json()`. -/
inductive Json where
  | jnull
  | jbool (b : Bool)
  | jnum (n : Int)
  | jstr (s : String)
  | jarr (xs : List Json)
  | jobj (fields : List (String × Json))

/-- First binding of a key in a JSON object field list (Python dict keys are
unique, so first-match equals dict lookup). -/
def lookupField (fields : List (String × Json)) (k : String) : Option Json :=
  (fields.find? (fun p => p.1 == k)).map (fun p => p.2)

/-- `j[k]` / `k in j` for dict-shaped JSON; `none` on non-objects. -/
def Json.lookup : Json → String → Option Json
  | .jobj fields, k => lookupField fields k
  | _, _ => none

/-- Python truthiness of a JSON value (`if not self.token`, `if prepared_by`,
and so on). -/
def pyFalsy : Json → Bool
  | .jnull => true
  | .jbool b => !b
  | .jnum n => n == 0
  | .jstr s => s == ""
  | .jarr xs => xs.isEmpty
  | .jobj fields => fields.isEmpty

/-- Python `str()` of a JSON value as used inside f-strings. Container and
scalar renderings that no theorem depends on are abbreviated. -/
def pyStr : Json → String
  | .jstr s => s
  | .jnum n => toString n
  | .jbool b => if b then "True" else "False"
  | .jnull => "None"
  | .jarr _ => "[...]"
  | .jobj _ => "object"

/-- `time.time() + expires_in` (Python numeric addition: defined for numbers
and bools, a `TypeError` on every other operand). -/
def pyPlus (now : Int) : Json → Option Int
  | .jnum n => some (now + n)
  | .jbool b => some (now + (if b then 1 else 0))
  | _ => none

/-- Whether `v[:10]` is legal Python — the debug print at src/test.py line
107 slices the cached token (`self.token[:10]`), which succeeds for strings
and lists and raises `TypeError` for every other value. -/
def pySliceable : Json → Bool
  | .jstr _ => true
  | .jarr _ => true
  | _ => false

/-- The token-manager state owned by `ThirdPartyAPIFacade` in src/test.py:
`self.token` (initially `None`) and `self.token_expiry` (initially `0`). -/
structure TMState where
  token : Option Json
  token_expiry : Int

/-- Outcome the token endpoint would produce for a grant request, were one
ever issued (see `_get_access_token`: none ever is): the request raises a
`RequestException` (with the message the handler at src/test.py lines 93-103
derives from the error response), the 2xx body is not JSON, or the 2xx body
parses to `body`. -/
inductive GrantOutcome where
  | httpFail (msg : String)
  | notJson
  | ok (body : Json)

/-- The failure modes of `_get_access_token`. `headersKwTypeErr` is the
`TypeError` raised at src/test.py line 50 (`session.request(..., headers=
headers, **kwargs)` while `kwargs` still contains the `headers` key the
caller passed), which every refresh hits. `printTypeErr` is the `TypeError`
from slicing a non-sliceable cached token at line 107. The remaining modes
belong to the refresh continuation (lines 73-106) that the line-50 error
makes unreachable: `badExpiresIn` is the `TypeError` from
`time.time() + expires_in` on a non-numeric `expires_in`. -/
inductive TokErr where
  | headersKwTypeErr
  | printTypeErr
  | httpFail (msg : String)
  | notJson
  | missingAccessToken
  | missingExpiresIn
  | badExpiresIn

/-- The presence checks of src/test.py lines 78-81 (top-level branch) and
86-89 (nested branch): `access_token` is checked first, then `expires_in`,
in the selected source object. For a non-object source Python raises a
`TypeError` or a missing-key `ValueError` depending on the value; both are
failures, modelled by the lookups returning `none`. -/
def parseTokenObj (src : Json) : Except TokErr (Json × Json) :=
  match src.lookup "access_token" with
  | none => .error .missingAccessToken
  | some tok =>
    match src.lookup "expires_in" with
    | none => .error .missingExpiresIn
    | some e => .ok (tok, e)

/-- Shape dispatch of src/test.py line 76: the nested source is selected
exactly when the `data` key is present; otherwise the top-level object is
used. There is no fallback from a present-but-incomplete `data`. -/
def parseTokenResponse (body : Json) : Except TokErr (Json × Json) :=
  match body.lookup "data" with
  | some d => parseTokenObj d
  | none => parseTokenObj body

/-- Refresh condition of src/test.py line 60:
`if not self.token or time.time() > self.token_expiry`. -/
def tokenNeedsRefresh (st : TMState) (now : Int) : Bool :=
  (match st.token with
   | none => true
   | some v => pyFalsy v) || decide (st.token_expiry < now)

/-- src/test.py lines 72-91 as they would behave had the grant request been
issued and returned: parse the body, then assign `self.token` and only then
compute `time.time() + expires_in` — so a `TypeError` there would leave the
new token with the old expiry. Unreachable in the source as written: the
`TypeError` at line 50 (see `_get_access_token`) precedes the request.
Retained as the embedding of the dead continuation, parallel to
`dlAfterValidation` for src/download.py. -/
def refreshContinuation (st : TMState) (now : Int) (grant : GrantOutcome) :
    Except TokErr Json × TMState × Nat :=
  match grant with
  | .httpFail m => (.error (.httpFail m), st, 1)
  | .notJson => (.error .notJson, st, 1)
  | .ok body =>
    match parseTokenResponse body with
    | .error e => (.error e, st, 1)
    | .ok (tok, e) =>
      match pyPlus now e with
      | none => (.error .badExpiresIn, { st with token := some tok }, 1)
      | some t => (.ok tok, { token := some tok, token_expiry := t }, 1)

/-- Embeds `ThirdPartyAPIFacade._get_access_token` (src/test.py lines
59-108). Returns the result (raised exceptions become `Except.error`), the
state after the call, and the number of grant requests issued.

Refresh branch: line 72 calls
`self._make_request('POST', endpoint, data=payload, headers=headers)`.
Inside `_make_request`, `kwargs.get('headers', {})` reads but does not
remove the key, so line 50 calls
`self.session.request(method, full_url, headers=headers, **kwargs)` with
`headers` both as an explicit keyword and inside `kwargs` — Python raises
`TypeError` (got multiple values for keyword argument) at the call site,
before any request is built. Neither `except requests.RequestException`
(lines 55, 93) nor `except (ValueError, KeyError)` (line 104) catches a
`TypeError`, so every refresh raises with zero grant requests issued and
nothing cached; the parse-and-cache continuation (`refreshContinuation`)
is dead code.

Cache-hit branch: the debug print at line 107 slices the cached value
(`self.token[:10]`), raising `TypeError` unless it is sliceable; otherwise
the cached value is returned with no request. -/
def _get_access_token (st : TMState) (now : Int) (_grant : GrantOutcome) :
    Except TokErr Json × TMState × Nat :=
  if tokenNeedsRefresh st now then
    (.error .headersKwTypeErr, st, 0)
  else
    match st.token with
    | some v => if pySliceable v then (.ok v, st, 0) else (.error .printTypeErr, st, 0)
    | none => (.error .printTypeErr, st, 0)

/-- `ThirdPartyAPIFacade.get_access_token` (src/test.py lines 110-113) just
delegates to `_get_access_token`. -/
def get_access_token (st : TMState) (now : Int) (grant : GrantOutcome) :
    Except TokErr Json × TMState × Nat :=
  _get_access_token st now grant

/-- The source object the parser reads fields from. -/
def selectedSource (j : Json) : Json :=
  (j.lookup "data").getD j

/-- A source object yields both required token fields. -/
def yieldsBothFields (src : Json) : Bool :=
  (src.lookup "access_token").isSome && (src.lookup "expires_in").isSome

/-- Whether an `Except` is a success. -/
def exceptIsOk {ε α : Type} : Except ε α → Bool
  | .ok _ => true
  | .error _ => false

/-- A Python value as passed for `location_id` / `file_id` / actor arguments
(the tests pass both ints and strings). Python `bool` is technically an `int`
subtype but no caller passes one; it is omitted. -/
inductive PyVal where
  | pint (n : Int)
  | pstr (s : String)
  | pnone

/-- Python `str()` of an argument value, as interpolated into URLs and the
multipart form. -/
def pyValStr : PyVal → String
  | .pint n => toString n
  | .pstr s => s
  | .pnone => "None"

/-- An argument value as it appears when placed into a JSON-like dict. -/
def pyValJson : PyVal → Json
  | .pint n => .jnum n
  | .pstr s => .jstr s
  | .pnone => .jnull

/-- Modelled from the spec: `utils.validators.validate_location_id` is not
among the sources (src/test.py line 11 imports it). Spec section 4.4: a valid
`locationId` is a positive integer, everything else raises `ValidationError`;
the placeholder method in src/download.py lines 175-180 implements the same
check (`not isinstance(location_id, int) or location_id <= 0`). -/
def validLocationId : PyVal → Bool
  | .pint n => decide (0 < n)
  | _ => false

/-- Modelled from the spec: `utils.validators.validate_user` is not among the
sources. Spec section 4.4: a valid actor is a non-empty string; the
placeholder method in src/download.py lines 182-187 implements the same check
(`not user or not isinstance(user, str)`). -/
def validUser : PyVal → Bool
  | .pstr s => !(s == "")
  | _ => false

/-- The local filesystem: a map from paths to byte contents, plus the set of
directories (touched only by `os.makedirs`). -/
structure FileSys where
  files : List (String × List Nat)
  dirs : List String

/-- `os.path.isfile`. -/
def isfile (fs : FileSys) (p : String) : Bool :=
  fs.files.any (fun q => q.1 == p)

/-- Read a file fully into memory (`open(file_path, "rb").read()`). -/
def readFile (fs : FileSys) (p : String) : List Nat :=
  ((fs.files.find? (fun q => q.1 == p)).map (fun q => q.2)).getD []

/-- `open(save_path, "wb")` followed by writing `bs`: replaces any previous
content at `p` (the open itself truncates). -/
def writeFile (fs : FileSys) (p : String) (bs : List Nat) : FileSys :=
  { fs with files := (p, bs) :: fs.files.filter (fun q => !(q.1 == p)) }

/-- `os.path.dirname`: everything before the final slash, empty when there is
no slash. -/
def dirname (p : String) : String :=
  match (p.splitOn "/").dropLast with
  | [] => ""
  | parts => String.intercalate "/" parts

/-- `os.path.basename`: everything after the final slash. -/
def basename (p : String) : String :=
  ((p.splitOn "/").getLastD "")

/-- `os.path.exists` restricted to what the model tracks. -/
def pathExists (fs : FileSys) (p : String) : Bool :=
  fs.dirs.contains p || fs.files.any (fun q => q.1 == p)

/-- src/download.py lines 41-43: create the parent directory of the save path
when it is non-empty and absent. Only the directory set changes. -/
def ensureDir (fs : FileSys) (d : String) : FileSys :=
  if d != "" && !(pathExists fs d) then { fs with dirs := d :: fs.dirs } else fs

/-- Outcome of one `requests` call that yields a buffered response: the final
response (status, JSON-parsed body when parsable, raw text), or a transport
exception carrying its message. -/
inductive HttpOutcome where
  | resp (status : Nat) (jsonBody : Option Json) (text : String)
  | netFail (msg : String)

/-- What `iter_content` delivers once the streaming step-2 GET has returned:
either the complete chunk sequence, or the chunks yielded before a mid-stream
transport exception interrupts the iteration (src/download.py lines 140-142
run inside the `try`, so the exception is caught at line 153 after the
already-received chunks were written). -/
inductive StreamBody where
  | complete (chunks : List (List Nat))
  | interrupted (chunks : List (List Nat)) (msg : String)

/-- Outcome of the streaming step-2 GET: `netFail` is a transport exception
raised by `requests.get` itself (before the file is opened); `resp` is a
final status plus the stream behavior. -/
inductive StreamOutcome where
  | resp (status : Nat) (body : StreamBody)
  | netFail (msg : String)

/-- src/download.py lines 140-142: chunks are written in order, empty
keep-alive chunks are skipped (which does not change the concatenation). -/
def joinChunks (cs : List (List Nat)) : List Nat :=
  (cs.filter (fun c => !c.isEmpty)).flatten

/-- Arguments of `ThirdPartyAPIFacade.download_file` (src/download.py). -/
structure DlArgs where
  location_id : PyVal
  file_id : PyVal
  requested_by : PyVal
  save_path : String

/-- Environment of one `download_file` call: the filesystem and the behavior
of the two outbound requests, were they to be issued. -/
structure DlEnv where
  fs : FileSys
  step1 : HttpOutcome
  step2 : StreamOutcome

/-- The dictionaries `download_file` returns: the success dict of
src/download.py lines 145-151 or one of the error dicts (every error dict
carries `status`, `error` and `locationId`). -/
inductive DlResult where
  | success (locationId : PyVal) (fileId : PyVal) (savePath : String) (message : String)
  | error (msg : String) (locationId : PyVal)

/-- Result of a `download_file` call: the returned dict, the filesystem after
the call, and whether the step-1 / step-2 requests were attempted. -/
structure DlOutcome where
  result : DlResult
  fs : FileSys
  step1Issued : Bool
  step2Issued : Bool

/-- The message of the `NameError` raised by src/download.py line 31 (Python
renders it as: name 'validate_location_id' is not defined; the quotes around
the identifier are omitted here). -/
def nameErrMsg : String := "name validate_location_id is not defined"

/-- The validation block of `download_file` (src/download.py lines 30-35).
Its first statement is `validate_location_id(location_id)`: the name is
resolved at module scope, where it is not defined (the function exists only
as a method of the class and is never imported), so Python raises `NameError`
before any argument is inspected. The remaining statements of the block
(`validate_user(requested_by)` — also a bare name — and the `file_id` check)
are unreachable. -/
def dlValidate (_args : DlArgs) : Except String Unit :=
  .error nameErrMsg

/-- The full error message of the validation-failure dict
(src/download.py line 38). -/
def dlValidationMsg : String := "Validation failed: " ++ nameErrMsg

/-- `ThirdPartyAPIFacade.get_access_token` of src/download.py lines 169-173:
a placeholder returning a constant string; it performs no network call and
cannot fail. -/
def dl_get_access_token : String := "eyJhbGciOiJIUzI1NiIsInR5cCI6IkpXVCJ9..."

/-- src/download.py lines 40-159: everything after the validation block.
Line order: ensure the save directory exists, fetch the (constant) token,
issue the step-1 POST, check status 200 exactly, parse JSON, require a dict,
require `download_url`, issue the step-2 GET, check status 200 exactly, and
only then open the save path and stream the chunks to it. A transport
exception raised by `requests.get` itself leaves the file untouched; a
mid-stream exception during `iter_content` is caught at line 153 after the
chunks received so far were written, leaving that partial file behind (the
open truncates first, so an `interrupted` stream always rewrites the file
with its received chunks). Messages that interpolate Python exception reprs
are carried via `pyStr`. -/
def dlAfterValidation (args : DlArgs) (env : DlEnv) : DlOutcome :=
  let fs1 := ensureDir env.fs (dirname args.save_path)
  match env.step1 with
  | .netFail m =>
    { result := .error ("Failed to parse initial response: " ++ m) args.location_id,
      fs := fs1, step1Issued := true, step2Issued := false }
  | .resp s j t =>
    if s ≠ 200 then
      { result := .error ("Failed to get download URL: status code " ++ toString s
          ++ ", response: " ++ t) args.location_id,
        fs := fs1, step1Issued := true, step2Issued := false }
    else
      match j with
      | none =>
        { result := .error ("Initial response is not JSON-parsable: " ++ t) args.location_id,
          fs := fs1, step1Issued := true, step2Issued := false }
      | some d =>
        match d with
        | .jobj fields =>
          match lookupField fields "download_url" with
          | none =>
            { result := .error "No download_url in initial response" args.location_id,
              fs := fs1, step1Issued := true, step2Issued := false }
          | some _u =>
            match env.step2 with
            | .netFail m =>
              { result := .error ("File download failed: " ++ m) args.location_id,
                fs := fs1, step1Issued := true, step2Issued := true }
            | .resp s2 body =>
              if s2 ≠ 200 then
                { result := .error ("File download failed: status code " ++ toString s2)
                    args.location_id,
                  fs := fs1, step1Issued := true, step2Issued := true }
              else
                match body with
                | .complete chunks =>
                  { result := .success args.location_id args.file_id args.save_path
                      "File downloaded successfully",
                    fs := writeFile fs1 args.save_path (joinChunks chunks),
                    step1Issued := true, step2Issued := true }
                | .interrupted chunks m =>
                  { result := .error ("File download failed: " ++ m) args.location_id,
                    fs := writeFile fs1 args.save_path (joinChunks chunks),
                    step1Issued := true, step2Issued := true }
        | other =>
          { result := .error ("Response data is not a dictionary: " ++ pyStr other)
              args.location_id,
            fs := fs1, step1Issued := true, step2Issued := false }

/-- Embeds `ThirdPartyAPIFacade.download_file` (src/download.py lines 10-159).
Every Python code path returns a dict, so the embedding is a total function
into `DlOutcome` — no exception escapes to the caller. The validation block
always raises `NameError` (see `dlValidate`), which the `except Exception`
handler turns into the validation-failure dict, so the remaining steps are
unreachable in the source as written. -/
def download_file (args : DlArgs) (env : DlEnv) : DlOutcome :=
  match dlValidate args with
  | .error m =>
    { result := .error ("Validation failed: " ++ m) args.location_id,
      fs := env.fs, step1Issued := false, step2Issued := false }
  | .ok _ => dlAfterValidation args env

/-- Whether a download result dict is an error dict. -/
def dlIsError : DlResult → Bool
  | .error _ _ => true
  | .success _ _ _ _ => false

/-- Modelled from the spec: `utils.rate_limiter.RateLimiter` is not among the
sources (src/test.py line 12 imports it; line 27 constructs it with
`limit=180, period=60`). Spec section 4.2: a sliding window of request
timestamps over the trailing `period` seconds. -/
structure RateLimiter where
  limit : Nat
  period : Int
  timestamps : List Int

/-- Modelled from the spec: `allow_request` prunes timestamps older than
`now - period`, then records `now` and admits the call when fewer than
`limit` remain, and otherwise denies without recording (spec section 4.2).
Returns the decision and the mutated window. -/
def allow_request (rl : RateLimiter) (now : Int) : Bool × RateLimiter :=
  let pruned := rl.timestamps.filter (fun t => decide (now - rl.period ≤ t))
  if pruned.length < rl.limit then
    (true, { rl with timestamps := pruned ++ [now] })
  else
    (false, { rl with timestamps := pruned })

/-- The mutable state of the `ThirdPartyAPIFacade` object in src/test.py:
token cache plus rate-limiter window (the session and proxies carry no
state the claims depend on). -/
structure FacadeState where
  tm : TMState
  rl : RateLimiter

/-- The failure modes of `_make_request` (src/test.py lines 32-57): the token
fetch inside it raised; the `TypeError` at line 50 from passing `headers`
both explicitly and inside `**kwargs` (raised at the call site, before any
request is built — see `_make_request`); `raise_for_status` raised an
`HTTPError` carrying the response; or the transport raised a
`RequestException` with no response. -/
inductive MkErr where
  | tokenFail (e : TokErr)
  | headersKw
  | httpError (status : Nat) (jsonBody : Option Json) (text : String)
  | netFail (msg : String)

/-- What a `_make_request` call did: its result (the response triple on
success), the local headers dict as it stands at the line-50 request
statement, the token-manager state afterwards, how many grant requests the
embedded token fetch issued, whether a token fetch was attempted at all, and
whether the HTTP request itself was actually issued. -/
structure MkOut where
  result : Except MkErr (Nat × Option Json × String)
  headersAtCall : List (String × String)
  tm : TMState
  grantRequests : Nat
  tokenFetched : Bool
  requestIssued : Bool

/-- Key presence in a header dict. -/
def hasKey (hs : List (String × String)) (k : String) : Bool :=
  hs.any (fun p => p.1 == k)

/-- `response.raise_for_status()`: `requests` raises `HTTPError` exactly for
status codes 400-599; every other status (including 1xx/3xx finals and
anything at or above 600) passes through. -/
def raiseForStatus (o : HttpOutcome) : Except MkErr (Nat × Option Json × String) :=
  match o with
  | .netFail m => .error (.netFail m)
  | .resp s j t => if 400 ≤ s ∧ s < 600 then .error (.httpError s j t) else .ok (s, j, t)

/-- Embeds `ThirdPartyAPIFacade._make_request` (src/test.py lines 32-57).
`headersKw` is the `headers` kwarg as the caller passed it (`none` when the
caller passed no such kwarg); `dataKeys` are the keys of the `data` kwarg;
`outcome` is the behavior of the network for this request.

Line 34 reads `headers = kwargs.get('headers', {}) or {}` without removing
the key from `kwargs`. Line 39: a bearer token is fetched and attached to
that local dict unless it already has an `Authorization` key or the body
contains a `grant_type` key (the token-grant call itself). Line 50 then
calls `session.request(method, full_url, headers=headers, **kwargs)`: when
the caller passed a `headers` kwarg the name arrives twice and Python raises
`TypeError` at the call site — no request is issued. Only calls without a
`headers` kwarg (such as the upload POST at line 175) actually reach the
network. URL resolution (line 45) does not affect any claim and the resolved
URL is not recorded. -/
def _make_request (tm : TMState) (now : Int) (grant : GrantOutcome)
    (headersKw : Option (List (String × String))) (dataKeys : List String)
    (outcome : HttpOutcome) : MkOut :=
  let headers := headersKw.getD []
  let issue : Except MkErr (Nat × Option Json × String) :=
    match headersKw with
    | some _ => .error .headersKw
    | none => raiseForStatus outcome
  if !(hasKey headers "Authorization") && !(dataKeys.contains "grant_type") then
    match _get_access_token tm now grant with
    | (.error e, tm2, n) =>
      { result := .error (.tokenFail e), headersAtCall := headers, tm := tm2,
        grantRequests := n, tokenFetched := true, requestIssued := false }
    | (.ok tok, tm2, n) =>
      let hs := headers ++ [("Authorization", "Bearer " ++ pyStr tok)]
      { result := issue, headersAtCall := hs, tm := tm2,
        grantRequests := n, tokenFetched := true, requestIssued := headersKw.isNone }
  else
    { result := issue, headersAtCall := headers, tm := tm, grantRequests := 0,
      tokenFetched := false, requestIssued := headersKw.isNone }

/-- Modelled from the spec: `utils.stringifier.stringify` is not among the
sources. Spec section 4.4: each optional structured field is serialized to a
string representation before inclusion; the placeholder in src/download.py
lines 162-167 renders each element with `str`. -/
def stringifyList (xs : List Json) : Json :=
  .jarr (xs.map (fun j => .jstr (pyStr j)))

/-- Modelled from the spec: `stringify` applied to the `document_status`
dict; iterating a Python dict yields its keys. -/
def stringifyDict (fields : List (String × Json)) : Json :=
  .jarr (fields.map (fun p => .jstr p.1))

/-- Arguments of `ThirdPartyAPIFacade.upload_file` (src/test.py lines
115-121). Optional structured fields carry their JSON shapes. -/
structure UpArgs where
  location_id : PyVal
  uploaded_by : PyVal
  file_path : String
  prepared_by : Option String
  report_title : Option String
  report_date : Option String
  display_filename : Option String
  service_groups : Option (List Json)
  service_types : Option (List Json)
  document_types : Option (List Json)
  document_status : Option (List (String × Json))

/-- src/test.py line 142: `display_filename if display_filename else
os.path.basename(file_path)` — note Python truthiness: an empty-string
override also falls back to the base name. -/
def uploadFilename (a : UpArgs) : String :=
  match a.display_filename with
  | some s => if s == "" then basename a.file_path else s
  | none => basename a.file_path

/-- One `if field:` guard of src/test.py lines 145-150: a string-valued
optional field is included only when truthy (present and non-empty). -/
def optStrField (k : String) (o : Option String) : List (String × Json) :=
  match o with
  | some s => if s == "" then [] else [(k, .jstr s)]
  | none => []

/-- One `if field:` guard of src/test.py lines 151-156: a list-valued
optional field is included, stringified, only when truthy (non-empty). -/
def optListField (k : String) (o : Option (List Json)) : List (String × Json) :=
  match o with
  | some xs => if xs.isEmpty then [] else [(k, stringifyList xs)]
  | none => []

/-- The `if document_status:` guard of src/test.py lines 157-158. -/
def optDictField (k : String) (o : Option (List (String × Json))) :
    List (String × Json) :=
  match o with
  | some fs => if fs.isEmpty then [] else [(k, stringifyDict fs)]
  | none => []

/-- The multipart form dict of src/test.py lines 137-158: required fields,
then each optional field appended only when truthy. -/
def buildUploadData (a : UpArgs) (filename : String) : List (String × Json) :=
  [("locationId", .jstr (pyValStr a.location_id)),
   ("uploadedBy", pyValJson a.uploaded_by),
   ("displayFileName", .jstr filename)]
  ++ optStrField "preparedBy" a.prepared_by
  ++ optStrField "reportTitle" a.report_title
  ++ optStrField "reportDate" a.report_date
  ++ optListField "serviceGroups" a.service_groups
  ++ optListField "serviceTypes" a.service_types
  ++ optListField "documentTypes" a.document_types
  ++ optDictField "documentStatus" a.document_status

/-- Modelled from the spec: `models.api_response.APIResponse` is not among
the sources (src/test.py line 10 imports it). Spec sections 4.4 and 6: on a
JSON success body the facade decodes the response envelope and returns its
`data` payload. -/
def APIResponse_data (body : Json) : Json :=
  (body.lookup "data").getD .jnull

/-- The synthesized minimal success dict of src/test.py lines 188-193,
returned when a 2xx body is not JSON-parsable. -/
def synthSuccess (lid : PyVal) (user : PyVal) (filename : String) : Json :=
  .jobj [("status", .jstr "success"),
         ("locationId", pyValJson lid),
         ("uploadedBy", pyValJson user),
         ("displayFileName", .jstr filename)]

/-- The message extraction of src/test.py lines 196-201 for a failed upload
request that carries a response: `e.response.json().get('message', 'Unknown
error')`; when the body is not JSON (ValueError) or not a dict
(AttributeError on `.get`), fall back to the decoded response text. -/
def uploadErrMessage (j : Option Json) (text : String) : String :=
  match j with
  | some (.jobj fields) =>
    match lookupField fields "message" with
    | some m => pyStr m
    | none => "Unknown error"
  | some _ => text
  | none => text

/-- Rendering of a raised token-fetch exception by `str(e)` when `upload_file`
wraps it (src/test.py line 135). Messages abbreviate Python internals the
claims do not depend on (the quotes Python puts around key names and the
exact TypeError phrasings are shortened). -/
def tokErrMsg : TokErr → String
  | .headersKwTypeErr => "request() got multiple values for keyword argument headers"
  | .printTypeErr => "unsupported slice of cached token"
  | .httpFail m => "Failed to get access token: " ++ m
  | .notJson => "Expecting value"
  | .missingAccessToken => "Token endpoint response missing access_token key"
  | .missingExpiresIn => "Token endpoint response missing expires_in key"
  | .badExpiresIn => "unsupported operand type for +"

/-- The exceptions `upload_file` can raise, i.e. the error channel of its
embedding (src/test.py lines 115-205). `typeRaise` is an exception other
than `RequestException` escaping `_make_request` and re-raised by the
`except Exception` at lines 203-205. -/
inductive UpErr where
  | validation (msg : String)
  | fileNotFound (msg : String)
  | auth (msg : String)
  | rateLimit (msg : String)
  | uploadFailed (msg : String)
  | tokenRaise (e : TokErr)
  | typeRaise (msg : String)

/-- Result of an `upload_file` call: the returned dict or raised exception,
the facade state afterwards, and how many token-grant requests and upload
POSTs were issued during the call. -/
structure UpOut where
  result : Except UpErr Json
  st : FacadeState
  grantRequests : Nat
  uploadRequests : Nat

/-- Environment of one `upload_file` call: the filesystem, the call time, the
token-endpoint behavior (what a grant request would return, were one ever
issued), and the behavior of the upload POST itself. -/
structure UpEnv where
  fs : FileSys
  now : Int
  grant : GrantOutcome
  upload : HttpOutcome

/-- Embeds `ThirdPartyAPIFacade.upload_file` (src/test.py lines 115-205).
Order as in the source: validate `location_id` then `uploaded_by` (raising
`ValidationError`), check the file exists, fetch a token (line 131 — with a
cold or expired cache this raises the line-50 `TypeError` wrapped as
`Authentication failed`, so the rest of the function is reached only via a
cache hit, with zero grant requests), build the form data and read the file,
consult the rate limiter (line 171), then call `_make_request` — which
fetches the token again (another cache hit) and attaches the bearer header.
The upload POST passes no `headers` kwarg (lines 175-181), so it does not
hit the line-50 `TypeError`. A 2xx JSON body yields `APIResponse(...).data`;
a 2xx non-JSON body yields the synthesized success dict; an `HTTPError`
yields the extracted-message failure; a transport failure without a response
uses the fallback text `No response`. -/
def upload_file (st : FacadeState) (a : UpArgs) (env : UpEnv) : UpOut :=
  if !(validLocationId a.location_id) then
    { result := .error (.validation "Invalid location ID"), st := st,
      grantRequests := 0, uploadRequests := 0 }
  else if !(validUser a.uploaded_by) then
    { result := .error (.validation "Invalid user"), st := st,
      grantRequests := 0, uploadRequests := 0 }
  else if !(isfile env.fs a.file_path) then
    { result := .error (.fileNotFound ("File not found at path: " ++ a.file_path)),
      st := st, grantRequests := 0, uploadRequests := 0 }
  else
    match _get_access_token st.tm env.now env.grant with
    | (.error e, tm2, n1) =>
      { result := .error (.auth ("Authentication failed: " ++ tokErrMsg e)),
        st := { tm := tm2, rl := st.rl }, grantRequests := n1, uploadRequests := 0 }
    | (.ok _tok, tm2, n1) =>
      let filename := uploadFilename a
      let data := buildUploadData a filename
      let _content := readFile env.fs a.file_path
      let rlStep := allow_request st.rl env.now
      if !rlStep.1 then
        { result := .error (.rateLimit "Rate limit exceeded. Please wait before retrying."),
          st := { tm := tm2, rl := rlStep.2 }, grantRequests := n1, uploadRequests := 0 }
      else
        let mk := _make_request tm2 env.now env.grant none (data.map (fun p => p.1)) env.upload
        let issued : Nat := if mk.requestIssued then 1 else 0
        match mk.result with
        | .ok (_s, j, _t) =>
          match j with
          | some body =>
            { result := .ok (APIResponse_data body),
              st := { tm := mk.tm, rl := rlStep.2 },
              grantRequests := n1 + mk.grantRequests, uploadRequests := issued }
          | none =>
            { result := .ok (synthSuccess a.location_id a.uploaded_by filename),
              st := { tm := mk.tm, rl := rlStep.2 },
              grantRequests := n1 + mk.grantRequests, uploadRequests := issued }
        | .error (.httpError _s j t) =>
          { result := .error (.uploadFailed ("File upload failed: " ++ uploadErrMessage j t)),
            st := { tm := mk.tm, rl := rlStep.2 },
            grantRequests := n1 + mk.grantRequests, uploadRequests := issued }
        | .error (.netFail _m) =>
          { result := .error (.uploadFailed "File upload failed: No response"),
            st := { tm := mk.tm, rl := rlStep.2 },
            grantRequests := n1 + mk.grantRequests, uploadRequests := issued }
        | .error .headersKw =>
          { result := .error (.typeRaise (tokErrMsg .headersKwTypeErr)),
            st := { tm := mk.tm, rl := rlStep.2 },
            grantRequests := n1 + mk.grantRequests, uploadRequests := issued }
        | .error (.tokenFail e) =>
          { result := .error (.tokenRaise e),
            st := { tm := mk.tm, rl := rlStep.2 },
            grantRequests := n1 + mk.grantRequests, uploadRequests := issued }

/-- Whether an upload outcome is the validation failure. -/
def upIsValidation : Except UpErr Json → Bool
  | .error (.validation _) => true
  | _ => false

/-- Helper: a successful `_get_access_token` call can only be a cache hit —
the state is unchanged, no grant request is issued, and the returned token is
exactly the cached one (every refresh raises the line-50 `TypeError`). -/
theorem get_token_ok_char (st : TMState) (now : Int) (g : GrantOutcome)
    (tok : Json) (st2 : TMState) (n : Nat)
    (h : _get_access_token st now g = (.ok tok, st2, n)) :
    st2 = st ∧ n = 0 ∧ st.token = some tok := by
  unfold _get_access_token at h
  split at h
  · simp at h
  · rcases hv : st.token with _ | v <;> rw [hv] at h
    · simp at h
    · by_cases hsl : pySliceable v = true
      · simp only [hsl, if_true, Prod.mk.injEq, Except.ok.injEq] at h
        obtain ⟨h1, h2, h3⟩ := h
        exact ⟨h2.symm, h3.symm, by simp [hv, h1]⟩
      · simp only [Bool.not_eq_true] at hsl
        simp [hsl] at h

/-- Helper: with a truthy, sliceable cached token and `now` at or before the
expiry, a call is a pure cache hit: same token, unchanged state, no grant
request. -/
theorem get_token_cache_hit (st : TMState) (now : Int) (g : GrantOutcome) (v : Json)
    (hv : st.token = some v) (ht : pyFalsy v = false) (hsl : pySliceable v = true)
    (he : now ≤ st.token_expiry) :
    _get_access_token st now g = (.ok v, st, 0) := by
  have hr : tokenNeedsRefresh st now = false := by
    simp [tokenNeedsRefresh, hv, ht]
    omega
  simp [_get_access_token, hr, hv, hsl]

/-- Helper: members of a string-valued optional segment all carry its key. -/
theorem optStrField_key (k : String) (o : Option String) (p : String × Json)
    (hp : p ∈ optStrField k o) : p.1 = k := by
  unfold optStrField at hp
  rcases o with _ | s
  · simp at hp
  · by_cases h : (s == "") = true
    · simp [h] at hp
    · simp only [Bool.not_eq_true] at h
      simp [h] at hp
      subst hp
      rfl

/-- Helper: members of a list-valued optional segment all carry its key. -/
theorem optListField_key (k : String) (o : Option (List Json)) (p : String × Json)
    (hp : p ∈ optListField k o) : p.1 = k := by
  unfold optListField at hp
  rcases o with _ | xs
  · simp at hp
  · by_cases h : xs.isEmpty = true
    · simp [h] at hp
    · simp only [Bool.not_eq_true] at h
      simp [h] at hp
      subst hp
      rfl

/-- Helper: members of the dict-valued optional segment carry its key. -/
theorem optDictField_key (k : String) (o : Option (List (String × Json)))
    (p : String × Json) (hp : p ∈ optDictField k o) : p.1 = k := by
  unfold optDictField at hp
  rcases o with _ | fs
  · simp at hp
  · by_cases h : fs.isEmpty = true
    · simp [h] at hp
    · simp only [Bool.not_eq_true] at h
      simp [h] at hp
      subst hp
      rfl

/-- Helper: the multipart form dict never contains a `grant_type` key, so an
upload request always takes the bearer-token branch of `_make_request`. -/
theorem buildUploadData_no_grant_type (a : UpArgs) (fn : String) :
    "grant_type" ∉ (buildUploadData a fn).map (fun p => p.1) := by
  intro hmem
  simp only [List.mem_map] at hmem
  obtain ⟨p, hp, hkey⟩ := hmem
  simp only [buildUploadData, List.append_assoc, List.mem_append,
    List.mem_cons, List.not_mem_nil, or_false] at hp
  rcases hp with ((rfl | rfl | rfl) | hp | hp | hp | hp | hp | hp | hp)
  · simp at hkey
  · simp at hkey
  · simp at hkey
  · rw [optStrField_key _ _ _ hp] at hkey; simp at hkey
  · rw [optStrField_key _ _ _ hp] at hkey; simp at hkey
  · rw [optStrField_key _ _ _ hp] at hkey; simp at hkey
  · rw [optListField_key _ _ _ hp] at hkey; simp at hkey
  · rw [optListField_key _ _ _ hp] at hkey; simp at hkey
  · rw [optListField_key _ _ _ hp] at hkey; simp at hkey
  · rw [optDictField_key _ _ _ hp] at hkey; simp at hkey

/-- Helper: `_make_request` without a `headers` kwarg and with a cache-hit
token fetch attaches the bearer header and issues the request, with no grant
call and no line-50 `TypeError`. -/
theorem make_request_no_headers (tm : TMState) (now : Int) (g : GrantOutcome)
    (dataKeys : List String) (o : HttpOutcome) (tok : Json)
    (htok : _get_access_token tm now g = (.ok tok, tm, 0))
    (hng : "grant_type" ∉ dataKeys) :
    _make_request tm now g none dataKeys o =
      { result := raiseForStatus o,
        headersAtCall := [("Authorization", "Bearer " ++ pyStr tok)],
        tm := tm, grantRequests := 0, tokenFetched := true, requestIssued := true } := by
  unfold _make_request
  rw [htok]
  simp [hasKey, hng]

/-- Helper: the presence checks succeed exactly when the inspected source
object yields both token fields. -/
theorem parseTokenObj_ok_iff (src : Json) :
    exceptIsOk (parseTokenObj src) = yieldsBothFields src := by
  unfold parseTokenObj yieldsBothFields
  rcases h1 : src.lookup "access_token" with _ | tok <;>
    rcases h2 : src.lookup "expires_in" with _ | e <;>
      simp [h1, h2, exceptIsOk]

/-- Claim C1 (code evaluated at the failing input): with fully valid
arguments, a step-1 response of 200 carrying a `download_url`, and a step-2
response of 200 streaming bytes, `download_file` still returns the
validation-failure dict, writes nothing, and issues neither request — the
bare-name call at src/download.py line 31 raises `NameError` on every call,
so the success path of the claim is unreachable. -/
theorem c1_download_success_code_behavior :
    download_file ⟨.pint 1, .pstr "f1", .pstr "alice", "out/f.bin"⟩
      ⟨⟨[], []⟩, .resp 200 (some (.jobj [("download_url", .jstr "http://x/y")])) "",
        .resp 200 (.complete [[1, 2, 3]])⟩ =
      { result := .error dlValidationMsg (.pint 1), fs := ⟨[], []⟩,
        step1Issued := false, step2Issued := false } := rfl

/-- Claim C2: for every input and every server behavior, `download_file`
returns a result dict that carries the `locationId` and a non-empty,
human-readable error message. The embedding is a total function into
`DlOutcome`, mirroring that every Python code path of the function returns a
dict — no exception escapes to the caller. -/
theorem c2_download_always_result (args : DlArgs) (env : DlEnv) :
    ∃ m, (download_file args env).result = .error m args.location_id ∧ m ≠ "" :=
  ⟨dlValidationMsg, rfl, by decide⟩

/-- Claim C3: invalid `locationId` (non-positive or not an integer) or
invalid actor (empty or not a string) makes `upload_file` raise
`ValidationError` and `download_file` return its validation-failure dict,
in both cases before any network request and without touching the rate
limiter or the filesystem. -/
theorem c3_validation_short_circuit (lid user : PyVal)
    (hinv : validLocationId lid = false ∨ validUser user = false) :
    (∀ (st : FacadeState) (a : UpArgs) (env : UpEnv),
      a.location_id = lid → a.uploaded_by = user →
      upIsValidation (upload_file st a env).result = true ∧
      (upload_file st a env).st = st ∧
      (upload_file st a env).grantRequests = 0 ∧
      (upload_file st a env).uploadRequests = 0) ∧
    (∀ (fid : PyVal) (sp : String) (env : DlEnv),
      download_file ⟨lid, fid, user, sp⟩ env =
        { result := .error dlValidationMsg lid, fs := env.fs,
          step1Issued := false, step2Issued := false }) := by
  constructor
  · intro st a env hl hu
    rcases hinv with h | h
    · simp [upload_file, hl, h, upIsValidation]
    · by_cases hv : validLocationId lid
      · simp [upload_file, hl, hu, h, hv, upIsValidation]
      · simp only [Bool.not_eq_true] at hv
        simp [upload_file, hl, hv, upIsValidation]
  · intro fid sp env
    rfl

/-- Witness for C3: `locationId = 0` with a well-formed actor string is
rejected by both operations with no request issued. -/
theorem c3_validation_short_circuit_witness :
    upIsValidation (upload_file ⟨⟨none, 0⟩, ⟨180, 60, []⟩⟩
      ⟨.pint 0, .pstr "u", "f.pdf", none, none, none, none, none, none, none, none⟩
      ⟨⟨[], []⟩, 0, .httpFail "down", .netFail "down"⟩).result = true ∧
    download_file ⟨.pint 0, .pstr "f", .pstr "u", "o.bin"⟩
      ⟨⟨[], []⟩, .netFail "down", .netFail "down"⟩ =
      { result := .error dlValidationMsg (.pint 0), fs := ⟨[], []⟩,
        step1Issued := false, step2Issued := false } :=
  ⟨((c3_validation_short_circuit (.pint 0) (.pstr "u") (Or.inl (by decide))).1
      ⟨⟨none, 0⟩, ⟨180, 60, []⟩⟩
      ⟨.pint 0, .pstr "u", "f.pdf", none, none, none, none, none, none, none, none⟩
      ⟨⟨[], []⟩, 0, .httpFail "down", .netFail "down"⟩ rfl rfl).1,
   (c3_validation_short_circuit (.pint 0) (.pstr "u") (Or.inl (by decide))).2
      (.pstr "f") "o.bin" ⟨⟨[], []⟩, .netFail "down", .netFail "down"⟩⟩

/-- Claim C4 (code evaluated at the failing input): the first conjunct runs
`_get_access_token` on the initial state (no cached token) with a
well-formed grant response available — instead of issuing one grant request
and caching the token, the call raises the `TypeError` from the duplicate
`headers` kwarg at src/test.py line 50 with zero grant requests issued and
the state unchanged, so the cache is never populated. The second conjunct
shows the read half the claim intends — a call before the expiry of an
(externally) cached token returns it with no grant request. The spec's
caching design is clearly the intent; the un-removed `headers` key in
`kwargs` is a slip. -/
theorem c4_token_caching_code_behavior :
    _get_access_token ⟨none, 0⟩ 0
      (.ok (.jobj [("access_token", .jstr "tok"), ("expires_in", .jnum 100)])) =
      (.error .headersKwTypeErr, ⟨none, 0⟩, 0) ∧
    _get_access_token ⟨some (.jstr "tok"), 100⟩ 50
      (.ok (.jobj [("access_token", .jstr "tok"), ("expires_in", .jnum 100)])) =
      (.ok (.jstr "tok"), ⟨some (.jstr "tok"), 100⟩, 0) :=
  ⟨rfl, rfl⟩

/-- Claim C5 (amended): token-response parsing reads the nested object
exactly when the `data` key is present and the top-level object otherwise,
and it succeeds exactly when the object so selected yields both
`access_token` and `expires_in` (failure is the raised `AuthError`). There
is no fallback to the top-level shape when `data` is present but incomplete;
that is forced by `c5_nested_no_fallback_cex`. -/
theorem c5_token_parse_amended (fields : List (String × Json)) :
    exceptIsOk (parseTokenResponse (.jobj fields)) =
      yieldsBothFields (selectedSource (.jobj fields)) := by
  unfold parseTokenResponse selectedSource
  rcases hd : (Json.jobj fields).lookup "data" with _ | d <;>
    simp [hd, parseTokenObj_ok_iff]

/-- Counterexample for claim C5 as stated: a response whose `data` is an
empty object while the top level carries both `access_token` and
`expires_in`. The top-level shape yields both fields, yet parsing fails —
the code never falls back from a present `data` key. -/
theorem c5_nested_no_fallback_cex :
    parseTokenResponse (.jobj [("data", .jobj []), ("access_token", .jstr "x"),
      ("expires_in", .jnum 10)]) = .error .missingAccessToken ∧
    yieldsBothFields (.jobj [("data", .jobj []), ("access_token", .jstr "x"),
      ("expires_in", .jnum 10)]) = true :=
  ⟨rfl, rfl⟩

/-- Claim C6: when the rate limiter denies an upload, the denial is reported
locally as the `RateLimitExceeded` failure and the operation has issued no
network call at all: the upload POST is never issued, and the token fetch
that precedes the check can only have been a cache hit (zero grant
requests), because a refresh raises the line-50 `TypeError` and ends the
call before the limiter is consulted. -/
theorem c6_rate_limit_denial_local (st : FacadeState) (a : UpArgs) (env : UpEnv)
    (tok : Json) (tm2 : TMState) (n1 : Nat)
    (hl : validLocationId a.location_id = true)
    (hu : validUser a.uploaded_by = true)
    (hf : isfile env.fs a.file_path = true)
    (htok : _get_access_token st.tm env.now env.grant = (.ok tok, tm2, n1))
    (hdeny : (allow_request st.rl env.now).1 = false) :
    (upload_file st a env).result =
      .error (.rateLimit "Rate limit exceeded. Please wait before retrying.") ∧
    (upload_file st a env).grantRequests = 0 ∧
    (upload_file st a env).uploadRequests = 0 := by
  obtain ⟨hst, hn, _⟩ := get_token_ok_char _ _ _ _ _ _ htok
  subst hst
  subst hn
  simp [upload_file, hl, hu, hf, htok, hdeny]

set_option maxRecDepth 20000 in
/-- Witness for C6: a warm token cache and a full window — the denial is
fully local, with no grant request and no upload request. -/
theorem c6_rate_limit_denial_local_witness :
    (upload_file ⟨⟨some (.jstr "tok"), 100⟩, ⟨180, 60, List.replicate 180 0⟩⟩
      ⟨.pint 1, .pstr "u", "f.pdf", none, none, none, none, none, none, none, none⟩
      ⟨⟨[("f.pdf", [37])], []⟩, 0, .httpFail "down",
        .resp 200 (some (.jobj [("data", .jobj [])])) "ok"⟩).result =
      .error (.rateLimit "Rate limit exceeded. Please wait before retrying.") ∧
    (upload_file ⟨⟨some (.jstr "tok"), 100⟩, ⟨180, 60, List.replicate 180 0⟩⟩
      ⟨.pint 1, .pstr "u", "f.pdf", none, none, none, none, none, none, none, none⟩
      ⟨⟨[("f.pdf", [37])], []⟩, 0, .httpFail "down",
        .resp 200 (some (.jobj [("data", .jobj [])])) "ok"⟩).grantRequests = 0 ∧
    (upload_file ⟨⟨some (.jstr "tok"), 100⟩, ⟨180, 60, List.replicate 180 0⟩⟩
      ⟨.pint 1, .pstr "u", "f.pdf", none, none, none, none, none, none, none, none⟩
      ⟨⟨[("f.pdf", [37])], []⟩, 0, .httpFail "down",
        .resp 200 (some (.jobj [("data", .jobj [])])) "ok"⟩).uploadRequests = 0 :=
  c6_rate_limit_denial_local
    ⟨⟨some (.jstr "tok"), 100⟩, ⟨180, 60, List.replicate 180 0⟩⟩
    ⟨.pint 1, .pstr "u", "f.pdf", none, none, none, none, none, none, none, none⟩
    ⟨⟨[("f.pdf", [37])], []⟩, 0, .httpFail "down",
      .resp 200 (some (.jobj [("data", .jobj [])])) "ok"⟩
    (.jstr "tok") ⟨some (.jstr "tok"), 100⟩ 0 rfl rfl rfl rfl (by decide)

/-- Claim C7 (amended): when the upload POST yields a final 4xx or 5xx
status — the statuses `raise_for_status` raises for — `upload_file` fails
with a message extracted from the `message` field of the JSON error
envelope, falling back to the raw response text when the body is not JSON.
The restriction of non-2xx to 4xx/5xx is forced by `c7_status_302_cex`. -/
theorem c7_upload_http_error_amended (st : FacadeState) (a : UpArgs) (env : UpEnv)
    (tok : Json) (tm2 : TMState) (n1 : Nat) (s : Nat) (j : Option Json) (t : String)
    (hl : validLocationId a.location_id = true)
    (hu : validUser a.uploaded_by = true)
    (hf : isfile env.fs a.file_path = true)
    (htok : _get_access_token st.tm env.now env.grant = (.ok tok, tm2, n1))
    (hallow : (allow_request st.rl env.now).1 = true)
    (hresp : env.upload = .resp s j t)
    (hs1 : 400 ≤ s) (hs2 : s < 600) :
    (upload_file st a env).result =
      .error (.uploadFailed ("File upload failed: " ++ uploadErrMessage j t)) ∧
    (∀ fields m, j = some (.jobj fields) → lookupField fields "message" = some m →
      uploadErrMessage j t = pyStr m) ∧
    (j = none → uploadErrMessage j t = t) := by
  obtain ⟨hst, hn, _⟩ := get_token_ok_char _ _ _ _ _ _ htok
  subst hst
  subst hn
  have hmk := make_request_no_headers st.tm env.now env.grant
    ((buildUploadData a (uploadFilename a)).map (fun p => p.1)) env.upload tok htok
    (buildUploadData_no_grant_type a (uploadFilename a))
  rw [hresp] at hmk
  refine ⟨?_, ?_, ?_⟩
  · simp [upload_file, hl, hu, hf, htok, hallow, hresp, hmk, raiseForStatus, hs1, hs2]
  · intro fields m hj hm
    subst hj
    simp [uploadErrMessage, hm]
  · intro hj
    subst hj
    rfl

/-- Witness for C7: warm cache, a 500 response carrying `message: boom` —
the failure message is extracted from the envelope. -/
theorem c7_upload_http_error_amended_witness :
    (upload_file ⟨⟨some (.jstr "tok"), 100⟩, ⟨180, 60, []⟩⟩
      ⟨.pint 1, .pstr "u", "f.pdf", none, none, none, some "r.pdf", none, none, none, none⟩
      ⟨⟨[("f.pdf", [37])], []⟩, 0, .httpFail "down",
        .resp 500 (some (.jobj [("message", .jstr "boom")])) "raw"⟩).result =
      .error (.uploadFailed ("File upload failed: " ++
        uploadErrMessage (some (.jobj [("message", .jstr "boom")])) "raw")) :=
  (c7_upload_http_error_amended ⟨⟨some (.jstr "tok"), 100⟩, ⟨180, 60, []⟩⟩
    ⟨.pint 1, .pstr "u", "f.pdf", none, none, none, some "r.pdf", none, none, none, none⟩
    ⟨⟨[("f.pdf", [37])], []⟩, 0, .httpFail "down",
      .resp 500 (some (.jobj [("message", .jstr "boom")])) "raw"⟩
    (.jstr "tok") ⟨some (.jstr "tok"), 100⟩ 0 500
    (some (.jobj [("message", .jstr "boom")])) "raw"
    rfl rfl rfl rfl rfl rfl (by decide) (by decide)).1

/-- Counterexample for claim C7 as stated: with a warm token cache the
upload POST is issued and receives a final 302 — non-2xx, but not a status
`raise_for_status` raises for — with a non-JSON body; the call returns the
synthesized success dict instead of a failure carrying a message. -/
theorem c7_status_302_cex :
    (upload_file ⟨⟨some (.jstr "tok"), 100⟩, ⟨180, 60, []⟩⟩
      ⟨.pint 1, .pstr "u", "f.pdf", none, none, none, some "r.pdf", none, none, none, none⟩
      ⟨⟨[("f.pdf", [37])], []⟩, 0, .httpFail "down", .resp 302 none "moved"⟩).result =
      .ok (synthSuccess (.pint 1) (.pstr "u") "r.pdf") := rfl

/-- Claim C8 (code evaluated at the failing input): the first conjunct runs
`upload_file` from the initial facade state with a valid file and a server
that would answer the upload POST with 200 and a non-JSON body — instead of
the claimed synthesized success, the call fails with `Authentication
failed` (the line-50 `TypeError` raised by the token fetch at src/test.py
line 131) before any request is issued, because the token cache can never
be populated (see C4). The second conjunct shows the behavior the claim
describes — lines 187-193 do synthesize the minimal success dict — on the
only path that reaches them: an externally warmed cache. -/
theorem c8_upload_nonjson_code_behavior :
    upload_file ⟨⟨none, 0⟩, ⟨180, 60, []⟩⟩
      ⟨.pint 7, .pstr "u", "dir/f.pdf", none, none, none, none, none, none, none, none⟩
      ⟨⟨[("dir/f.pdf", [37])], []⟩, 0,
        .ok (.jobj [("access_token", .jstr "tok"), ("expires_in", .jnum 100)]),
        .resp 200 none "OK"⟩ =
      { result := .error (.auth ("Authentication failed: " ++ tokErrMsg .headersKwTypeErr)),
        st := ⟨⟨none, 0⟩, ⟨180, 60, []⟩⟩, grantRequests := 0, uploadRequests := 0 } ∧
    (upload_file ⟨⟨some (.jstr "tok"), 100⟩, ⟨180, 60, []⟩⟩
      ⟨.pint 7, .pstr "u", "dir/f.pdf", none, none, none, none, none, none, none, none⟩
      ⟨⟨[("dir/f.pdf", [37])], []⟩, 0,
        .ok (.jobj [("access_token", .jstr "tok"), ("expires_in", .jnum 100)]),
        .resp 200 none "OK"⟩).result =
      .ok (synthSuccess (.pint 7) (.pstr "u")
        (uploadFilename ⟨.pint 7, .pstr "u", "dir/f.pdf", none, none, none, none,
          none, none, none, none⟩)) :=
  ⟨rfl, rfl⟩

/-- Claim C9: `_make_request` consults the token manager and attaches an
`Authorization: Bearer` header to its headers dict exactly when the caller
supplied no `Authorization` header and the request body has no `grant_type`
key — in particular the token-grant call (whose form data carries
`grant_type`) never triggers a token fetch, and supplied headers pass
through unchanged. Additionally, whenever the caller passed a `headers`
kwarg at all, the line-50 `TypeError` (duplicate keyword) aborts the call
before the request is issued. -/
theorem c9_bearer_injection (tm : TMState) (now : Int) (g : GrantOutcome)
    (headersKw : Option (List (String × String))) (dataKeys : List String)
    (o : HttpOutcome) :
    ((hasKey (headersKw.getD []) "Authorization" = true ∨ "grant_type" ∈ dataKeys) →
      (_make_request tm now g headersKw dataKeys o).tokenFetched = false ∧
      (_make_request tm now g headersKw dataKeys o).headersAtCall = headersKw.getD [] ∧
      (_make_request tm now g headersKw dataKeys o).grantRequests = 0) ∧
    (hasKey (headersKw.getD []) "Authorization" = false → "grant_type" ∉ dataKeys →
      (_make_request tm now g headersKw dataKeys o).tokenFetched = true ∧
      (∀ tok tm2 n, _get_access_token tm now g = (.ok tok, tm2, n) →
        (_make_request tm now g headersKw dataKeys o).headersAtCall =
          headersKw.getD [] ++ [("Authorization", "Bearer " ++ pyStr tok)])) ∧
    (∀ hs, headersKw = some hs →
      (_make_request tm now g headersKw dataKeys o).requestIssued = false ∧
      exceptIsOk (_make_request tm now g headersKw dataKeys o).result = false) := by
  refine ⟨?_, ?_, ?_⟩
  · intro h
    rcases h with h | h <;> simp [_make_request, h]
  · intro h1 h2
    constructor
    · unfold _make_request
      rcases hg : _get_access_token tm now g with ⟨r, tm2, n⟩
      rcases r with e | tok <;> simp [hg, h1, h2]
    · intro tok tm2 n htokk
      unfold _make_request
      simp [htokk, h1, h2]
  · intro hs hkw
    subst hkw
    unfold _make_request
    rcases hg : _get_access_token tm now g with ⟨r, tm2, n⟩
    rcases r with e | tok <;>
      simp [hg, exceptIsOk] <;>
      split <;>
      simp [exceptIsOk]

/-- Witness for C9: the token-grant call shape — a `headers` kwarg with
`Content-Type` and form data carrying `grant_type`. No token fetch occurs,
the headers dict is unchanged, no grant request is issued, and the request
itself is never issued (the line-50 `TypeError`). -/
theorem c9_bearer_injection_witness :
    (_make_request ⟨none, 0⟩ 0 (.httpFail "x")
      (some [("Content-Type", "application/x-www-form-urlencoded")])
      ["grant_type", "client_id", "client_secret", "scope"]
      (.resp 200 none "")).tokenFetched = false ∧
    (_make_request ⟨none, 0⟩ 0 (.httpFail "x")
      (some [("Content-Type", "application/x-www-form-urlencoded")])
      ["grant_type", "client_id", "client_secret", "scope"]
      (.resp 200 none "")).headersAtCall =
      [("Content-Type", "application/x-www-form-urlencoded")] ∧
    (_make_request ⟨none, 0⟩ 0 (.httpFail "x")
      (some [("Content-Type", "application/x-www-form-urlencoded")])
      ["grant_type", "client_id", "client_secret", "scope"]
      (.resp 200 none "")).grantRequests = 0 ∧
    (_make_request ⟨none, 0⟩ 0 (.httpFail "x")
      (some [("Content-Type", "application/x-www-form-urlencoded")])
      ["grant_type", "client_id", "client_secret", "scope"]
      (.resp 200 none "")).requestIssued = false :=
  ⟨((c9_bearer_injection ⟨none, 0⟩ 0 (.httpFail "x")
      (some [("Content-Type", "application/x-www-form-urlencoded")])
      ["grant_type", "client_id", "client_secret", "scope"]
      (.resp 200 none "")).1 (Or.inr (by simp))).1,
   ((c9_bearer_injection ⟨none, 0⟩ 0 (.httpFail "x")
      (some [("Content-Type", "application/x-www-form-urlencoded")])
      ["grant_type", "client_id", "client_secret", "scope"]
      (.resp 200 none "")).1 (Or.inr (by simp))).2.1,
   ((c9_bearer_injection ⟨none, 0⟩ 0 (.httpFail "x")
      (some [("Content-Type", "application/x-www-form-urlencoded")])
      ["grant_type", "client_id", "client_secret", "scope"]
      (.resp 200 none "")).1 (Or.inr (by simp))).2.2,
   ((c9_bearer_injection ⟨none, 0⟩ 0 (.httpFail "x")
      (some [("Content-Type", "application/x-www-form-urlencoded")])
      ["grant_type", "client_id", "client_secret", "scope"]
      (.resp 200 none "")).2.2
      [("Content-Type", "application/x-www-form-urlencoded")] rfl).1⟩

/-- Claim C10: whenever the step-2 GET would return a non-200 status, the
download ends in a failure result and the file map is byte-for-byte
unchanged — in particular a pre-existing file at `save_path` is untouched.
(In the source as written the validation failure already returns before any
file is opened; even on the post-validation path, the non-200 check at
src/download.py line 131 returns before `open(save_path, "wb")`, whatever
the stream would have carried.) -/
theorem c10_step2_frame (a : DlArgs) (env : DlEnv) (s2 : Nat) (body : StreamBody)
    (_h2 : env.step2 = .resp s2 body) (_hs : s2 ≠ 200) :
    dlIsError (download_file a env).result = true ∧
    (download_file a env).fs.files = env.fs.files :=
  ⟨rfl, rfl⟩

/-- Witness for C10: a pre-existing file at the save path survives a failed
(404) step-2 attempt. -/
theorem c10_step2_frame_witness :
    dlIsError (download_file ⟨.pint 1, .pstr "f", .pstr "u", "d/out.bin"⟩
      ⟨⟨[("d/out.bin", [9, 9])], ["d"]⟩,
        .resp 200 (some (.jobj [("download_url", .jstr "u")])) "",
        .resp 404 (.complete [])⟩).result = true ∧
    (download_file ⟨.pint 1, .pstr "f", .pstr "u", "d/out.bin"⟩
      ⟨⟨[("d/out.bin", [9, 9])], ["d"]⟩,
        .resp 200 (some (.jobj [("download_url", .jstr "u")])) "",
        .resp 404 (.complete [])⟩).fs.files = [("d/out.bin", [9, 9])] :=
  c10_step2_frame ⟨.pint 1, .pstr "f", .pstr "u", "d/out.bin"⟩
    ⟨⟨[("d/out.bin", [9, 9])], ["d"]⟩,
      .resp 200 (some (.jobj [("download_url", .jstr "u")])) "",
      .resp 404 (.complete [])⟩ 404 (.complete []) rfl (by decide)
